import Mathlib

/-!
Verification development for the wiktextract repository
(`src/wiktextract/wiktionary.py`).

The file shallowly embeds the parts of `wiktionary.py` needed by the
claims: the static template/tag tables, the relation-block classifier
`parse_text`, and the streaming XML page assembler `WiktionaryTarget`
(`start` / `end` / character data).  Python strings become `String`,
Python lists become `List`, Python `None` becomes `Option`, raised
exceptions become explicit error results.  Braces inside string
literals are written with the `\x7b` / `\x7d` escapes.

The template-argument extraction performed by the external
`wikitextparser` library, and the template normalizer (whose tables and
regular expressions appear in the source but whose driving function does
not), are modelled from the specification; their doc comments say so.
-/

/-! ## Python string primitives -/

/-- Characters stripped by Python's `str.strip()` (ASCII whitespace). -/
def isPySpace (c : Char) : Bool :=
  c == ' ' || c == '\t' || c == '\n' || c == '\r' || c == '\x0b' || c == '\x0c'

/-- Python `str.strip()`: drop leading and trailing whitespace. -/
def pyStrip (s : String) : String :=
  ⟨((s.data.dropWhile isPySpace).reverse.dropWhile isPySpace).reverse⟩

/-- Helper for `splitlines`: accumulates the current line (reversed). -/
def splitlinesAux : List Char → List Char → List String
  | [], [] => []
  | [], acc => [⟨acc.reverse⟩]
  | '\r' :: '\n' :: rest, acc => (⟨acc.reverse⟩ : String) :: splitlinesAux rest []
  | '\n' :: rest, acc => (⟨acc.reverse⟩ : String) :: splitlinesAux rest []
  | '\r' :: rest, acc => (⟨acc.reverse⟩ : String) :: splitlinesAux rest []
  | '\x0b' :: rest, acc => (⟨acc.reverse⟩ : String) :: splitlinesAux rest []
  | '\x0c' :: rest, acc => (⟨acc.reverse⟩ : String) :: splitlinesAux rest []
  | c :: rest, acc => splitlinesAux rest (c :: acc)

/-- Python `str.splitlines()` on the line separators `\n`, `\r\n`, `\r`,
`\x0b`, `\x0c` (the rare unicode separators are not modelled; no input in
this development contains them).  No trailing empty line is produced. -/
def splitlines (s : String) : List String :=
  splitlinesAux s.data []

/-- Bool test that `pat` is a prefix of `l`. -/
def hasPre : List Char → List Char → Bool
  | _, [] => true
  | [], _ :: _ => false
  | c :: cs, p :: ps => c == p && hasPre cs ps

/-- Helper for `pyContains`. -/
def containsAux : List Char → List Char → Bool
  | [], p => hasPre [] p
  | l@(_ :: cs), p => hasPre l p || containsAux cs p

/-- Python's `sub in s` substring containment test. -/
def pyContains (s sub : String) : Bool :=
  containsAux s.data sub.data

/-- Python `\w` word characters (ASCII fragment, which covers every string
occurring in the embedded code paths). -/
def isWordChar (c : Char) : Bool :=
  c.isAlphanum || c == '_'

/-- The header normalization `re.sub(r'[^\w]', ' ', aword).strip()` used by
`parse_text` (wiktionary.py lines 725-741). -/
def normHeader (s : String) : String :=
  pyStrip ⟨s.data.map (fun c => if isWordChar c then c else ' ')⟩

/-! ## Static tables from wiktionary.py -/

/-- XML tags ignored when parsing (wiktionary.py lines 17-22, a Python
set; the duplicate `"username"` entry of the source is kept). -/
def ignore_tags : List String :=
  ["sha1", "comment", "username", "timestamp",
   "sitename", "dbname", "base", "generator", "case",
   "ns", "restrictions", "contributor", "username",
   "minor", "parentid", "namespaces", "revision",
   "siteinfo", "mediawiki"]

/-- Other tags are ignored inside these tags (wiktionary.py line 25). -/
def stack_ignore : List String :=
  ["contributor"]

/-- Recognized content models (wiktionary.py lines 891-892). -/
def recognizedModels : List String :=
  ["wikitext", "Scribunto", "css", "javascript", "sanitized-css"]

/-- Recognized content formats (wiktionary.py lines 896-897). -/
def recognizedFormats : List String :=
  ["text/x-wiki", "text/plain", "text/css", "text/javascript"]

/-- Models that cause the whole page to be dropped on `EndTag("page")`
(wiktionary.py lines 903-904). -/
def nonTextModels : List String :=
  ["css", "sanitized-css", "javascript", "Scribunto"]

/-- Wiktionary templates that are silently ignored
(wiktionary.py lines 29-240). -/
def ignored_templates : List String :=
  ["-", "=", "*", "!", ",", "...", "AD", "BCE", "B.C.E.", "Book-B", "C.",
   "CE", "C.E.", "BC", "B.C.", "A.D.", "Clade", "CURRENTYEAR", "EtymOnLine",
   "EtymOnline", "IPAchar", "LR", "PAGENAME", "Q", "Webster 1913", "\\",
   "abbreviation-old", "af", "affix", "altcaps", "anchor", "ante",
   "attention", "attn", "bor", "borrowed", "bottom", "bottom2", "bottom3",
   "bottom4", "bullet", "checksense", "circa", "circa2", "cite",
   "cite book", "Cite news", "cite news", "cite-book", "cite-journal",
   "cite-magazine", "cite-news", "cite-newgroup", "cite-song", "cite-text",
   "cite-video", "cite-web", "cite web", "cog", "col-top", "col-bottom",
   "datedef", "def-date", "defdate", "defdt", "defn", "der", "der-bottom",
   "der-bottom2", "der-bottom3", "der-bottom4", "der-mid2", "der-mid3",
   "der-mid4", "der-mid", "derived", "dot", "doublet", "eggcorn of",
   "ellipsis", "em dash", "en dash", "etyl", "example needed", "examples",
   "examples-right", "frac", "g", "gloss-stub", "glossary", "hyp2",
   "hyp-top", "hyp-mid", "hyp-mid3", "hyp-bottom3", "hyp-bottom", "inh",
   "inherited", "interwiktionary", "ISO 639", "jump", "katharevousa",
   "ko-inline", "lang", "list", "ll", "lookfrom", "m", "mention", "mid2",
   "mid3", "mid4", "mid4", "middot", "multiple images", "nb...", "nbsp",
   "ndash", "no entry", "noncog", "noncognate", "nowrap", "nuclide",
   "overline", "phrasebook", "pedia", "pedialite", "picdic", "picdiclabel",
   "picdiclabel/new", "pos_v", "post", "quote-book", "quote-journal",
   "quote-magazine", "quote-news", "quote-newsgroup", "quote-song",
   "quote-text", "quote-video", "quote-web", "redirect", "rel-bottom",
   "rel-mid", "rel-mid2", "rel-mid3", "rel-mid4", "rfap", "rfc",
   "rfc-auto", "rfc-def", "rfc-header", "rfc-level", "rfc-subst",
   "rfc-tsort", "rfc-sense", "rfcite-sense", "rfd-redundant", "rfd-sense",
   "rfdate", "rfdatek", "rfdef", "rfe", "rfex", "rfexample", "rfm-sense",
   "rfgloss", "rfquote", "rfquote-sense", "rfquotek", "rft-sense",
   "rfv-sense", "rhymes", "rhymes", "see", "see also", "seeCites",
   "seemoreCites", "seemorecites", "seeMoreCites", "seeSynonyms", "sic",
   "smallcaps", "soplink", "spndash", "stroke order", "stub-gloss", "sub",
   "suffixsee", "sup", "syndiff", "t-check", "t+check", "table:colors/fi",
   "top2", "top3", "top4", "translation only", "trans-mid", "trans-bottom",
   "uncertain", "unk", "unsupported", "used in phrasal verbs", "was wotd",
   "wikisource1911Enc", "wikivoyage", "ws", "ws link", "zh-hg"]

/-- Templates replaced by the value of their first argument
(wiktionary.py lines 351-500).  The entry
`"informal form ofinformal spelling of"` reproduces the source's
adjacent-string-literal concatenation on lines 428-429. -/
def clean_arg1_tags : List String :=
  ["...", "Br. English form of", "W", "Wikipedia", "abb", "abbreviation of",
   "abbreviation", "acronym of", "agent noun of", "alt form of", "alt form",
   "alt form", "alt-form", "alt-sp", "altcaps", "alternate form of",
   "alternate spelling of", "alternative capitalisation of",
   "alternative capitalization of", "alternative case form of",
   "alternative form of", "alternative name of", "alternative name of",
   "alternative plural of", "alternative spelling of",
   "alternative term for", "alternative typography of", "altform",
   "altspell", "altspelling", "apocopic form of", "archaic form of",
   "archaic spelling of", "aspirate mutation of", "attributive form of",
   "attributive of", "caret notation of", "clip", "clipping of", "clipping",
   "common misspelling of", "comparative of", "contraction of",
   "dated form of", "dated spelling of", "deliberate misspelling of",
   "diminutive of", "ellipsis of", "ellipse of", "elongated form of",
   "en-archaic second-person singular of",
   "en-archaic third-person singular of", "en-comparative of",
   "en-irregular plural of", "en-past of",
   "en-second person singular past of", "en-second-person singular past of",
   "en-simple past of", "en-superlative of", "en-third person singular of",
   "en-third-person singular of", "euphemistic form of",
   "euphemistic spelling of", "eye dialect of", "eye dialect",
   "eye-dialect of", "femine of", "feminine noun of", "feminine plural of",
   "feminine singular of", "form of", "former name of", "gerund of",
   "hard mutation of", "honoraltcaps", "imperative of",
   "informal form ofinformal spelling of", "ja-l", "ja-r", "lenition of",
   "masculine plural of", "masculine singular of", "misconstruction of",
   "misspelling of", "mixed mutation of", "n-g", "native or resident of",
   "nb...", "neuter plural of", "neuter singular of", "ngd", "nobr",
   "nominative plural of", "non-gloss definition", "non-gloss",
   "nonstandard form of", "nonstandard spelling of", "nowrap",
   "obsolete form of", "obsolete spelling of", "obsolete typography of",
   "overwrite", "past of", "past sense of", "past tense of", "pedlink",
   "pedlink", "plural form of", "plural of", "present of",
   "present particle of", "present tense of", "pronunciation spelling of",
   "pronunciation spelling", "pronunciation respelling of", "rare form of",
   "rare spelling of", "rareform", "second person singular past of",
   "second-person singular of", "second-person singular past of",
   "short for", "short form of", "short of", "singular form of",
   "singular of", "slim-wikipedia", "soft mutation of", "standard form of",
   "standard spelling of", "standspell", "sub", "sup", "superlative of",
   "superseded spelling of", "swp", "taxlink", "taxlinknew",
   "uncommon spelling of", "unsupported", "verb", "vern", "w", "wikipedia",
   "wikisaurus", "wikispecies", "zh-m"]

/-- Templates replaced by their second argument (wiktionary.py 504-512). -/
def clean_arg2_tags : List String :=
  ["zh-l", "ja-l", "l", "defn", "w", "m", "mention"]

/-- Templates replaced by their third argument (wiktionary.py 516-518). -/
def clean_arg3_tags : List String :=
  ["w2"]

/-- Templates replaced by a literal value; `\1` in the value refers to the
template's first argument (wiktionary.py lines 525-554). -/
def clean_replace_map : List (String × String) :=
  [("en dash", " - "),
   ("em dash", " - "),
   ("ndash", " - "),
   ("\\", " / "),
   ("...", "..."),
   ("BCE", "BCE"),
   ("B.C.E.", "B.C.E."),
   ("CE", "CE"),
   ("C.E.", "C.E."),
   ("BC", "BC"),
   ("B.C.", "B.C."),
   ("A.D.", "A.D."),
   ("AD", "AD"),
   ("Latn-def", "latin character"),
   ("sumti", "x\\1"),
   ("inflection of", "inflection of \\1"),
   ("initialism of", "initialism of \\1"),
   ("synonym of", "synonym of \\1"),
   ("given name", "\\1 given name"),
   ("forename", "\\1 given name"),
   ("historical given name", "\\1 given name"),
   ("surname", "surname"),
   ("taxon", "taxonomic \\1"),
   ("SI-unit", "unit of measurement"),
   ("SI-unit-abb2", "unit of measurement"),
   ("SI-unit-2", "unit of measurement"),
   ("SI-unit-np", "unit of measurement"),
   ("gloss", "(\\1)")]

/-! ## Template occurrence parsing

Modelled from the spec: `parse_text` delegates template parsing to the
external `wikitextparser` library (`wtp.parse(aword).templates[0]
.arguments[0].value`), whose code is not part of this repository.  The
definitions below follow spec section 4.2: a template is
`\x7b\x7bname|arg|...\x7d\x7d`; argument scanning skips nested balanced
`\x7b\x7b...\x7d\x7d`, `[[...]]` and `[...]` spans when looking for `|`
separators and the closing braces; named `key=value` arguments are
recognized but excluded from positional indexing; a malformed or
unterminated template yields no occurrence. -/

/-- Modelled from the spec: position of the first template opener; returns
the characters following the first `\x7b\x7b`. -/
def findOpen : List Char → Option (List Char)
  | '\x7b' :: '\x7b' :: rest => some rest
  | _ :: rest => findOpen rest
  | [] => none

/-- Modelled from the spec: scans a template name.  Returns the name, a
flag telling whether an argument list follows (`true` when the scan
stopped at `|`, `false` when it stopped at the closing braces), and the
remaining characters.  A brace inside the name makes the occurrence
malformed. -/
def scanName : List Char → List Char → Option (String × Bool × List Char)
  | [], _ => none
  | '|' :: rest, acc => some (⟨acc.reverse⟩, true, rest)
  | '\x7d' :: '\x7d' :: rest, acc => some (⟨acc.reverse⟩, false, rest)
  | '\x7b' :: _, _ => none
  | '\x7d' :: _, _ => none
  | c :: rest, acc => scanName rest (c :: acc)

/-- Modelled from the spec: scans the `|`-separated argument list of a
template, tracking brace depth and bracket depth so that separators inside
nested `\x7b\x7b...\x7d\x7d`, `[[...]]` and `[...]` spans are skipped.
Returns the raw argument texts and the characters after the closing
braces; `none` when the template is unterminated. -/
def scanArgs : List Char → Nat → Nat → List Char → List String →
    Option (List String × List Char)
  | [], _, _, _, _ => none
  | '\x7b' :: '\x7b' :: rest, b, k, acc, done =>
      scanArgs rest (b + 1) k ('\x7b' :: '\x7b' :: acc) done
  | '\x7d' :: '\x7d' :: rest, b + 1, k, acc, done =>
      scanArgs rest b k ('\x7d' :: '\x7d' :: acc) done
  | '\x7d' :: '\x7d' :: rest, 0, 0, acc, done =>
      some (done ++ [⟨acc.reverse⟩], rest)
  | '\x7d' :: '\x7d' :: rest, 0, k + 1, acc, done =>
      scanArgs rest 0 (k + 1) ('\x7d' :: '\x7d' :: acc) done
  | '[' :: rest, b, k, acc, done => scanArgs rest b (k + 1) ('[' :: acc) done
  | ']' :: rest, b, k, acc, done => scanArgs rest b (k - 1) (']' :: acc) done
  | '|' :: rest, 0, 0, acc, done =>
      scanArgs rest 0 0 [] (done ++ [⟨acc.reverse⟩])
  | c :: rest, b, k, acc, done => scanArgs rest b k (c :: acc) done

/-- Modelled from the spec: an argument containing a top-level `=` is a
named `key=value` argument. -/
def topLevelHasEq : List Char → Nat → Nat → Bool
  | [], _, _ => false
  | '=' :: _, 0, 0 => true
  | '\x7b' :: '\x7b' :: rest, b, k => topLevelHasEq rest (b + 1) k
  | '\x7d' :: '\x7d' :: rest, b + 1, k => topLevelHasEq rest b k
  | '[' :: rest, b, k => topLevelHasEq rest b (k + 1)
  | ']' :: rest, b, k => topLevelHasEq rest b (k - 1)
  | _ :: rest, b, k => topLevelHasEq rest b k

/-- Modelled from the spec: named arguments are excluded from positional
indexing. -/
def positionalArgs (args : List String) : List String :=
  args.filter (fun a => !topLevelHasEq a.data 0 0)

/-- Modelled from the spec: parses one template occurrence starting right
after its opening braces.  Returns the template name, the raw argument
texts, and the characters following the occurrence. -/
def parseTemplateAt (cs : List Char) : Option (String × List String × List Char) :=
  match scanName cs [] with
  | none => none
  | some (name, false, rest) => some (name, [], rest)
  | some (name, true, rest) =>
      match scanArgs rest 0 0 [] [] with
      | none => none
      | some (args, rest2) => some (name, args, rest2)

/-- Modelled from the spec: the value of the first positional argument of
the first template occurrence in `s` (what
`wtp.parse(s).templates[0].arguments[0].value` yields for the inputs of
this development), or `none` when there is no such template or argument
(the code's `try/except` path). -/
def firstTemplateArg0 (s : String) : Option String :=
  match findOpen s.data with
  | none => none
  | some cs =>
      match parseTemplateAt cs with
      | none => none
      | some (_, args, _) => (positionalArgs args).head?

/-! ## The relation-block classifier (`parse_text`, wiktionary.py 696-795) -/

/-- The extracted entry: the dictionary built by `parse_text` and written
as one JSON object (wiktionary.py lines 712-791). -/
structure Entry where
  word : String
  Synonyms : List String
  Antonyms : List String
  Hyponyms : List String
  Hypernyms : List String
  Instances : List String
  Meronyms : List String
  Holonyms : List String
deriving DecidableEq

/-- The `key` variable of `parse_text`: `nokey` is Python `None`, `a`-`g`
are the seven relation buckets, `dontcare` is the string
`"Dont care now"` set by the sentinel headers. -/
inductive RelKey
  | nokey | a | b | c | d | e | f | g | dontcare
deriving DecidableEq

/-- The loop state of `parse_text`: the current key and the seven bucket
lists `syno`, `anto`, `hypo`, `hyper`, `inst`, `mero`, `holy`. -/
structure LoopState where
  key : RelKey
  syno : List String
  anto : List String
  hypo : List String
  hyper : List String
  inst : List String
  mero : List String
  holy : List String
deriving DecidableEq

/-- Initial loop state (wiktionary.py lines 711-720). -/
def initLoop : LoopState :=
  ⟨RelKey.nokey, [], [], [], [], [], [], []⟩

def kWsBegin : String := "\x7b\x7bws beginlist\x7d\x7d"
def kWsEnd : String := "\x7b\x7bws endlist\x7d\x7d"
def kSynonyms : String := "Synonyms"
def kAntonyms : String := "Antonyms"
def kHyponyms : String := "Hyponyms"
def kHypernyms : String := "Hypernyms"
def kInstances : String := "Instances"
def kMeronyms : String := "Meronyms"
def kHolonyms : String := "Holonyms"
def kVarious : String := "=====Various====="
def kSeeAlso : String := "===See also==="
def kFurther : String := "===Further reading==="

/-- The seven recognized relation header labels. -/
def relLabels : List String :=
  [kSynonyms, kAntonyms, kHyponyms, kHypernyms, kInstances, kMeronyms,
   kHolonyms]

/-- One iteration of the `for aword in wordss` loop of `parse_text`
(wiktionary.py lines 721-783): list-boundary markers are skipped, a
header line (after `[^\w]`-to-space normalization and strip) selects the
key, the sentinel lines select the ignored key, and while a bucket key is
active each non-header line contributes the first argument of its first
template (if any) to that bucket. -/
def step (st : LoopState) (aword : String) : LoopState :=
  if aword == kWsBegin || aword == kWsEnd then st
  else
    let n := normHeader aword
    let key :=
      if n == kSynonyms then RelKey.a
      else if n == kAntonyms then RelKey.b
      else if n == kHyponyms then RelKey.c
      else if n == kHypernyms then RelKey.d
      else if n == kInstances then RelKey.e
      else if n == kMeronyms then RelKey.f
      else if n == kHolonyms then RelKey.g
      else if aword == kVarious || aword == kSeeAlso || aword == kFurther then
        RelKey.dontcare
      else st.key
    let st := { st with key := key }
    let st :=
      if key == RelKey.a && !(n == kSynonyms) then
        match firstTemplateArg0 aword with
        | some v => { st with syno := st.syno ++ [v] }
        | none => st
      else st
    let st :=
      if key == RelKey.b && !(n == kAntonyms) then
        match firstTemplateArg0 aword with
        | some v => { st with anto := st.anto ++ [v] }
        | none => st
      else st
    let st :=
      if key == RelKey.c && !(n == kHyponyms) then
        match firstTemplateArg0 aword with
        | some v => { st with hypo := st.hypo ++ [v] }
        | none => st
      else st
    let st :=
      if key == RelKey.d && !(n == kHypernyms) then
        match firstTemplateArg0 aword with
        | some v => { st with hyper := st.hyper ++ [v] }
        | none => st
      else st
    let st :=
      if key == RelKey.e && !(n == kInstances) then
        match firstTemplateArg0 aword with
        | some v => { st with inst := st.inst ++ [v] }
        | none => st
      else st
    let st :=
      if key == RelKey.f && !(n == kMeronyms) then
        match firstTemplateArg0 aword with
        | some v => { st with mero := st.mero ++ [v] }
        | none => st
      else st
    let st :=
      if key == RelKey.g && !(n == kHolonyms) then
        match firstTemplateArg0 aword with
        | some v => { st with holy := st.holy ++ [v] }
        | none => st
      else st
    st

/-- The line list of `parse_text`:
`[s.strip() for s in text.splitlines() if s]` (wiktionary.py line 709). -/
def wordss (text : String) : List String :=
  ((splitlines text).filter (fun s => s != "")).map pyStrip

def kThesaurus : String := "Thesaurus:"

/-- Result of `parse_text`: `skip` is the early `return` for titles
without the target marker, `err` is an uncaught exception
(the `IndexError` of `wordss[0]` on an empty line list), `output e` is
the entry appended to `Output.txt`. -/
inductive PTResult
  | skip | err | output (e : Entry)
deriving DecidableEq

/-- The classifier `parse_text` (wiktionary.py lines 696-795): pages whose
title does not contain `"Thesaurus:"` are skipped; otherwise the entry's
word is the first non-empty (stripped) body line and the seven buckets
are filled by folding `step` over all body lines. -/
def parse_text (word text : String) : PTResult :=
  if pyContains word kThesaurus = false then PTResult.skip
  else
    match wordss text with
    | [] => PTResult.err
    | w0 :: ws =>
        let fin := List.foldl step initLoop (w0 :: ws)
        PTResult.output
          ⟨w0, fin.syno, fin.anto, fin.hypo, fin.hyper, fin.inst, fin.mero,
           fin.holy⟩

/-! ## The template normalizer

Modelled from the spec: the repository declares the normalization tables
(`ignored_templates`, `clean_arg1_tags`, `clean_arg2_tags`,
`clean_arg3_tags`, `clean_replace_map`) and the regular expressions
built from them, but contains no function in `src/` that applies them;
`normalize` below follows spec section 4.2 over those tables.  Rule
precedence per the spec: literal replacement (with `\1` standing for the
first positional argument, per the source comment on
wiktionary.py lines 520-524), then first/second/third-argument
replacement, then silent deletion for ignored templates; anything else,
and any template missing the required argument, is left untouched. -/

/-- Modelled from the spec: substitutes each `\1` in a replacement value
by the first positional argument's text. -/
def substArg1 : List Char → String → List Char
  | '\\' :: '1' :: rest, arg => arg.data ++ substArg1 rest arg
  | c :: rest, arg => c :: substArg1 rest arg
  | [], _ => []

/-- Association-list lookup used for `clean_replace_map`. -/
def lookupStr (l : List (String × String)) (k : String) : Option String :=
  (l.find? (fun p => p.1 == k)).map (fun p => p.2)

/-- Modelled from the spec: the replacement text for one recognized
template occurrence, or `none` when the occurrence is left untouched. -/
def applyTemplateRule (name : String) (args : List String) : Option String :=
  match lookupStr clean_replace_map name with
  | some repl =>
      some ⟨substArg1 repl.data ((positionalArgs args).headD "")⟩
  | none =>
      if clean_arg1_tags.contains name then (positionalArgs args).get? 0
      else if clean_arg2_tags.contains name then (positionalArgs args).get? 1
      else if clean_arg3_tags.contains name then (positionalArgs args).get? 2
      else if ignored_templates.contains name then some ""
      else none

/-- Modelled from the spec: the original text of a parsed template
occurrence, emitted unchanged for unrecognized templates. -/
def rebuildTemplate (name : String) (args : List String) : List Char :=
  '\x7b' :: '\x7b' :: (name.data ++
    args.foldr (fun a acc => '|' :: (a.data ++ acc)) ['\x7d', '\x7d'])

/-- Modelled from the spec: left-to-right, non-overlapping rewriting of
recognized template occurrences; malformed or unterminated templates are
not rewritten.  The fuel argument starts at the text length, which
bounds the number of steps since every step consumes at least one
character. -/
def normalizeAux : Nat → List Char → List Char
  | 0, cs => cs
  | fuel + 1, cs =>
      match cs with
      | '\x7b' :: '\x7b' :: rest =>
          (match parseTemplateAt rest with
           | some (name, args, rest2) =>
               (match applyTemplateRule name args with
                | some repl => repl.data ++ normalizeAux fuel rest2
                | none => rebuildTemplate name args ++ normalizeAux fuel rest2)
           | none => '\x7b' :: '\x7b' :: normalizeAux fuel rest)
      | c :: rest => c :: normalizeAux fuel rest
      | [] => []

/-- Modelled from the spec: the template normalizer
`normalize(text) -> text` of spec section 4.2 (named `normalizeText`
here because Mathlib already claims the name `normalize`). -/
def normalizeText (s : String) : String :=
  ⟨normalizeAux s.length s.data⟩

/-! ## The streaming page assembler (`WiktionaryTarget`, wiktionary.py 802-922) -/

/-- The mutable state of a `WiktionaryTarget` instance that the claims
depend on: the redirect-capture flag, the tag stack, the character-data
accumulator, the attributes of the last start tag, the namespace map, and
the per-page record fields. -/
structure Target where
  capture_redirects : Bool
  stack : List String
  dataBuf : List String
  attrs : List (String × String)
  namespaces : List (Option String × String)
  text? : Option String
  title? : Option String
  pageid? : Option String
  redirect? : Option String
  model? : Option String
  format? : Option String
deriving DecidableEq

/-- Observable effects of one event: `wordCb` is a `word_cb` invocation
(only ever made with a redirect record), `fileEntry` is the JSON object
`parse_text` appends to `Output.txt`, and the `diag*` constructors are
the non-fatal `print` diagnostics. -/
inductive Effect
  | wordCb (redirect : String) (word : Option String)
  | fileEntry (e : Entry)
  | diagModel (d : String)
  | diagFormat (d : String)
  | diagUnsupported (t : String)
deriving DecidableEq

/-- Errors escaping the `end` handler: `stackMismatch popped got` is the
failed `assert tag == ptag` (the popped name and the normalized end-tag
name), `emptyStack` is `pop` on an empty stack, and `pageCrash` is an
exception raised while dispatching a finished page (the `IndexError` of
`parse_text` on an empty line list, or its failed `isinstance`
assertions when title or text is missing). -/
inductive EndErr
  | stackMismatch (popped got : String)
  | emptyStack
  | pageCrash
deriving DecidableEq

/-- Result of one `end` event. -/
inductive EndResult
  | ok (st : Target) (effs : List Effect)
  | err (e : EndErr)
deriving DecidableEq

/-- Tag-name normalization of `start`/`end` (wiktionary.py 841-845,
862-865): strip everything up to the first `\x7d` (the namespace
wrapper), then lowercase. -/
def dropNsAux : List Char → Option (List Char)
  | [] => none
  | '\x7d' :: rest => some rest
  | _ :: rest => dropNsAux rest

/-- ASCII lowercasing (`str.lower()`; every tag name in the dump schema
is ASCII). -/
def pyLower (s : String) : String :=
  ⟨s.data.map Char.toLower⟩

/-- Normalized tag name: namespace stripped, lowercased. -/
def normTag (tag : String) : String :=
  pyLower
    (match dropNsAux tag.data with
     | some r => (⟨r⟩ : String)
     | none => tag)

/-- Attribute-key normalization `re.sub(r".*\x7d", "", k)` of `start`
(wiktionary.py line 844): greedy, so everything up to the last `\x7d`
goes. -/
def attrKeyNorm (k : String) : String :=
  ⟨(k.data.reverse.takeWhile (fun c => c != '\x7d')).reverse⟩

/-- Attribute lookup (`attrs.get(...)`). -/
def lookupAttr (attrs : List (String × String)) (k : String) : Option String :=
  (attrs.find? (fun p => p.1 == k)).map (fun p => p.2)

/-- The `start` handler (wiktionary.py 839-858): normalize the tag, push
it, remember the normalized attributes, reset the data buffer, and clear
all page fields on a `page` start tag. -/
def startTag (st : Target) (tag : String) (attrs : List (String × String)) :
    Target :=
  let t := normTag tag
  let st := { st with
    stack := t :: st.stack
    attrs := attrs.map (fun p => (attrKeyNorm p.1, p.2))
    dataBuf := [] }
  if t == "page" then
    { st with
      text? := none
      title? := none
      pageid? := none
      redirect? := none
      model? := none
      format? := none }
  else st

/-- The character-data handler (wiktionary.py 916-918). -/
def charData (st : Target) (d : String) : Target :=
  { st with dataBuf := st.dataBuf ++ [d] }

/-- Non-redirect delivery on `EndTag("page")` (wiktionary.py line 911):
the body is handed to `parse_text`, whose uncaught exceptions (and the
failed `isinstance` assertions when title or text is missing) abort the
run. -/
def deliverPage (s : Target) : EndResult :=
  match s.title?, s.text? with
  | some ti, some tx =>
      match parse_text ti tx with
      | PTResult.skip => EndResult.ok s []
      | PTResult.err => EndResult.err EndErr.pageCrash
      | PTResult.output e => EndResult.ok s [Effect.fileEntry e]
  | _, _ => EndResult.err EndErr.pageCrash

/-- Redirect routing on `EndTag("page")` (wiktionary.py 906-911). -/
def endPageDispatch (st : Target) : EndResult :=
  match st.redirect? with
  | some r =>
      if r != "" then
        if st.capture_redirects then
          EndResult.ok st [Effect.wordCb r st.title?]
        else EndResult.ok st []
      else deliverPage st
  | none => deliverPage st

/-- The body of the `end` handler after the pop and the stack assertion
(wiktionary.py 868-914), applied to the state with the popped stack and
cleared data buffer, the normalized tag `t` and the joined, stripped
character data. -/
def endTagBody (st : Target) (t data : String) : EndResult :=
  if ignore_tags.contains t then EndResult.ok st []
  else if stack_ignore.any (fun x => st.stack.contains x) then
    EndResult.ok st []
  else if t == "id" then
    (if st.stack.contains ("revision") then EndResult.ok st []
     else EndResult.ok { st with pageid? := some data } [])
  else if t == "title" then EndResult.ok { st with title? := some data } []
  else if t == "text" then EndResult.ok { st with text? := some data } []
  else if t == "redirect" then
    EndResult.ok { st with redirect? := lookupAttr st.attrs ("title") } []
  else if t == "namespace" then
    EndResult.ok
      { st with namespaces := (lookupAttr st.attrs ("key"), data) ::
          st.namespaces } []
  else if t == "model" then
    EndResult.ok { st with model? := some data }
      (if recognizedModels.contains data then [] else [Effect.diagModel data])
  else if t == "format" then
    EndResult.ok { st with format? := some data }
      (if recognizedFormats.contains data then []
       else [Effect.diagFormat data])
  else if t == "page" then
    (match st.model? with
     | some m =>
         if nonTextModels.contains m then EndResult.ok st []
         else endPageDispatch st
     | none => endPageDispatch st)
  else EndResult.ok st [Effect.diagUnsupported t]

/-- The `end` handler (wiktionary.py 860-914): normalize the tag, pop the
stack (failing on an empty stack), fail with a stack mismatch when the
popped name differs from the normalized tag, and otherwise run the body
on the joined, stripped character data with a cleared buffer. -/
def endTag (st : Target) (tag : String) : EndResult :=
  match st.stack with
  | [] => EndResult.err EndErr.emptyStack
  | ptag :: rest =>
      if normTag tag == ptag then
        endTagBody { st with stack := rest, dataBuf := [] } (normTag tag)
          (pyStrip (String.join st.dataBuf))
      else EndResult.err (EndErr.stackMismatch ptag (normTag tag))

/-! ## Supporting definitions for the verification -/

/-- Two classifier loop states hold the same seven buckets. -/
def sameBuckets (s t : LoopState) : Prop :=
  s.syno = t.syno ∧ s.anto = t.anto ∧ s.hypo = t.hypo ∧ s.hyper = t.hyper ∧
    s.inst = t.inst ∧ s.mero = t.mero ∧ s.holy = t.holy

/-- The body of the spec's end-to-end scenario:
`===Synonyms===`, `\x7b\x7bl|en|glad\x7d\x7d`, `===Antonyms===`,
`\x7b\x7bl|en|sad\x7d\x7d`. -/
def bodyC1 : String :=
  "===Synonyms===\n\x7b\x7bl|en|glad\x7d\x7d\n===Antonyms===\n\x7b\x7bl|en|sad\x7d\x7d"

/-- What the code actually extracts from `bodyC1`: the word is the first
body line and each bucket holds the first template argument of its lines
(the language code `en`). -/
def entryC1 : Entry := ⟨"===Synonyms===", ["en"], ["en"], [], [], [], [], []⟩

/-- The entry the spec's scenario claims. -/
def claimedC1 : Entry := ⟨"happy", ["glad"], ["sad"], [], [], [], [], []⟩

/-- Assembler state at `EndTag("page")` for a finished, qualifying,
non-redirect wikitext page. -/
def stateC2 : Target :=
  ⟨false, ["page"], [], [], [], some bodyC1, some ("Thesaurus:happy"),
   some ("1"), none, some ("wikitext"), some ("text/x-wiki")⟩

/-- Assembler state at `EndTag("model")` whose accumulated text is not a
recognized content model. -/
def stateC6 : Target :=
  ⟨false, ["model", "revision", "page"], ["weird-model"], [], [], none, none,
   none, none, none, none⟩

/-- Assembler state at `EndTag("format")` whose accumulated text is not a
recognized content format. -/
def stateC6f : Target :=
  ⟨false, ["format", "revision", "page"], ["weird-format"], [], [], none,
   none, none, none, none, none⟩

/-- Assembler state at `EndTag("page")` for a page whose content model is
`Scribunto`. -/
def stateC7 : Target :=
  ⟨true, ["page"], [], [], [], some ("code"), some ("Module:x"), none, none,
   some ("Scribunto"), none⟩

/-- Assembler state with `page` on top of the tag stack. -/
def stateC8 : Target :=
  ⟨false, ["page"], [], [], [], none, none, none, none, none, none⟩

/-- Assembler state at `EndTag("page")` for a redirect page with redirect
capture disabled. -/
def stateC9 : Target :=
  ⟨false, ["page"], [], [], [], some ("body"), some ("Cat"), none,
   some ("Dog"), some ("wikitext"), none⟩

/-- A classifier state that is actively collecting synonyms. -/
def stW : LoopState := ⟨RelKey.a, ["x"], [], [], [], [], [], []⟩

/-- Lines following a sentinel header, none of which is a recognized
relation header. -/
def restW : List String := ["\x7b\x7bl|en|dog\x7d\x7d", "plain line"]

/-! ## Helper lemmas -/

lemma contains_false_not_mem {l : List String} {a : String}
    (h : l.contains a = false) : a ∉ l := by
  simpa [List.contains, List.elem_eq_mem] using h

lemma sameBuckets_refl (s : LoopState) : sameBuckets s s :=
  ⟨rfl, rfl, rfl, rfl, rfl, rfl, rfl⟩

lemma sameBuckets_trans {s t u : LoopState} (h1 : sameBuckets s t)
    (h2 : sameBuckets t u) : sameBuckets s u := by
  obtain ⟨a1, a2, a3, a4, a5, a6, a7⟩ := h1
  obtain ⟨b1, b2, b3, b4, b5, b6, b7⟩ := h2
  exact ⟨a1.trans b1, a2.trans b2, a3.trans b3, a4.trans b4, a5.trans b5,
    a6.trans b6, a7.trans b7⟩

lemma step_inert (st : LoopState) (l : String)
    (hk : st.key = RelKey.nokey ∨ st.key = RelKey.dontcare)
    (hl : relLabels.contains (normHeader l) = false) :
    ((step st l).key = RelKey.nokey ∨ (step st l).key = RelKey.dontcare) ∧
      sameBuckets (step st l) st := by
  simp [relLabels, List.contains, List.elem_eq_mem] at hl
  obtain ⟨h1, h2, h3, h4, h5, h6, h7⟩ := hl
  unfold step
  by_cases hws : (l == kWsBegin || l == kWsEnd) = true
  · simp only [hws, if_true]
    exact ⟨hk, rfl, rfl, rfl, rfl, rfl, rfl, rfl⟩
  · rw [Bool.not_eq_true] at hws
    simp only [hws, Bool.false_eq_true, if_false, beq_iff_eq, h1, h2, h3, h4,
      h5, h6, h7, if_false]
    by_cases hsent :
        (l == kVarious || l == kSeeAlso || l == kFurther) = true
    · simp only [hsent, if_true]
      simp [sameBuckets]
    · rw [Bool.not_eq_true] at hsent
      simp only [hsent, Bool.false_eq_true, if_false]
      rcases hk with hk | hk <;>
        simp [hk, sameBuckets]

lemma fold_inert (lines : List String) (st : LoopState)
    (hk : st.key = RelKey.nokey ∨ st.key = RelKey.dontcare)
    (hl : ∀ l ∈ lines, relLabels.contains (normHeader l) = false) :
    ((List.foldl step st lines).key = RelKey.nokey ∨
      (List.foldl step st lines).key = RelKey.dontcare) ∧
      sameBuckets (List.foldl step st lines) st := by
  induction lines generalizing st with
  | nil => exact ⟨hk, sameBuckets_refl st⟩
  | cons l ls ih =>
      have hstep := step_inert st l hk (hl l (List.mem_cons_self l ls))
      have hrest := ih (step st l) hstep.1
        (fun x hx => hl x (List.mem_cons_of_mem l hx))
      exact ⟨hrest.1, sameBuckets_trans hrest.2 hstep.2⟩

lemma step_sentinel (st : LoopState) (l : String)
    (hs : l = kVarious ∨ l = kSeeAlso ∨ l = kFurther) :
    (step st l).key = RelKey.dontcare ∧ sameBuckets (step st l) st := by
  rcases hs with h | h | h <;> subst h <;>
    exact ⟨rfl, rfl, rfl, rfl, rfl, rfl, rfl, rfl⟩

lemma deliverPage_shape (s : Target) :
    (∃ effs, deliverPage s = EndResult.ok s effs) ∨
      deliverPage s = EndResult.err EndErr.pageCrash := by
  unfold deliverPage
  repeat' split
  all_goals first
    | exact Or.inl ⟨_, rfl⟩
    | exact Or.inr rfl

lemma endPageDispatch_shape (s : Target) :
    (∃ effs, endPageDispatch s = EndResult.ok s effs) ∨
      endPageDispatch s = EndResult.err EndErr.pageCrash := by
  unfold endPageDispatch
  repeat' split
  all_goals first
    | exact Or.inl ⟨_, rfl⟩
    | exact Or.inr rfl
    | exact deliverPage_shape s

lemma endTagBody_shape (s : Target) (t d : String) :
    (∃ s2 effs, endTagBody s t d = EndResult.ok s2 effs ∧
      s2.stack = s.stack) ∨
      endTagBody s t d = EndResult.err EndErr.pageCrash := by
  unfold endTagBody
  by_cases hI : ignore_tags.contains t = true
  · rw [if_pos hI]
    exact Or.inl ⟨_, _, rfl, rfl⟩
  rw [if_neg hI]
  by_cases hS : (stack_ignore.any fun x => s.stack.contains x) = true
  · rw [if_pos hS]
    exact Or.inl ⟨_, _, rfl, rfl⟩
  rw [if_neg hS]
  by_cases h1 : (t == "id") = true
  · rw [if_pos h1]
    by_cases h1b : s.stack.contains ("revision") = true
    · rw [if_pos h1b]
      exact Or.inl ⟨_, _, rfl, rfl⟩
    · rw [if_neg h1b]
      exact Or.inl ⟨_, _, rfl, rfl⟩
  rw [if_neg h1]
  by_cases h2 : (t == "title") = true
  · rw [if_pos h2]
    exact Or.inl ⟨_, _, rfl, rfl⟩
  rw [if_neg h2]
  by_cases h3 : (t == "text") = true
  · rw [if_pos h3]
    exact Or.inl ⟨_, _, rfl, rfl⟩
  rw [if_neg h3]
  by_cases h4 : (t == "redirect") = true
  · rw [if_pos h4]
    exact Or.inl ⟨_, _, rfl, rfl⟩
  rw [if_neg h4]
  by_cases h5 : (t == "namespace") = true
  · rw [if_pos h5]
    exact Or.inl ⟨_, _, rfl, rfl⟩
  rw [if_neg h5]
  by_cases h6 : (t == "model") = true
  · rw [if_pos h6]
    exact Or.inl ⟨_, _, rfl, rfl⟩
  rw [if_neg h6]
  by_cases h7 : (t == "format") = true
  · rw [if_pos h7]
    exact Or.inl ⟨_, _, rfl, rfl⟩
  rw [if_neg h7]
  by_cases h8 : (t == "page") = true
  · rw [if_pos h8]
    rcases endPageDispatch_shape s with ⟨effs, he⟩ | he
    · repeat' split
      all_goals first
        | exact Or.inl ⟨_, _, rfl, rfl⟩
        | exact Or.inl ⟨s, effs, he, rfl⟩
    · repeat' split
      all_goals first
        | exact Or.inl ⟨_, _, rfl, rfl⟩
        | exact Or.inr he
  rw [if_neg h8]
  exact Or.inl ⟨_, _, rfl, rfl⟩

lemma endTagBody_no_mismatch (s : Target) (t d q r : String) :
    endTagBody s t d ≠ EndResult.err (EndErr.stackMismatch q r) := by
  intro h
  rcases endTagBody_shape s t d with ⟨s2, effs, he, -⟩ | he
  · rw [he] at h
    exact EndResult.noConfusion h
  · rw [he] at h
    injection h with h2
    exact EndErr.noConfusion h2

lemma endTagBody_ok_stack (s : Target) (t d : String) (s2 : Target)
    (effs : List Effect) (h : endTagBody s t d = EndResult.ok s2 effs) :
    s2.stack = s.stack := by
  rcases endTagBody_shape s t d with ⟨s3, effs2, he, hst⟩ | he
  · rw [he] at h
    injection h with h2 h3
    subst h2
    exact hst
  · rw [he] at h
    exact EndResult.noConfusion h

lemma endTag_cons (s : Target) (tag : String) (rest : List String)
    (h : s.stack = normTag tag :: rest) :
    endTag s tag = endTagBody { s with stack := rest, dataBuf := [] }
      (normTag tag) (pyStrip (String.join s.dataBuf)) := by
  unfold endTag
  rw [h]
  simp

lemma endTagBody_model (s : Target) (d : String)
    (hc : s.stack.contains ("contributor") = false)
    (hm : recognizedModels.contains d = false) :
    endTagBody s ("model") d =
      EndResult.ok { s with model? := some d } [Effect.diagModel d] := by
  unfold endTagBody
  rw [if_neg (by decide : ¬(ignore_tags.contains ("model")) = true)]
  rw [if_neg (show ¬((stack_ignore.any fun x => s.stack.contains x) = true) by
    simp [stack_ignore, contains_false_not_mem hc])]
  rw [if_neg (by decide), if_neg (by decide), if_neg (by decide),
    if_neg (by decide), if_neg (by decide), if_pos (by decide)]
  rw [if_neg (by simp [contains_false_not_mem hm])]

lemma endTagBody_format (s : Target) (d : String)
    (hc : s.stack.contains ("contributor") = false)
    (hm : recognizedFormats.contains d = false) :
    endTagBody s ("format") d =
      EndResult.ok { s with format? := some d } [Effect.diagFormat d] := by
  unfold endTagBody
  rw [if_neg (by decide : ¬(ignore_tags.contains ("format")) = true)]
  rw [if_neg (show ¬((stack_ignore.any fun x => s.stack.contains x) = true) by
    simp [stack_ignore, contains_false_not_mem hc])]
  rw [if_neg (by decide), if_neg (by decide), if_neg (by decide),
    if_neg (by decide), if_neg (by decide), if_neg (by decide),
    if_pos (by decide)]
  rw [if_neg (by simp [contains_false_not_mem hm])]

lemma endTagBody_page_start (s : Target) (d : String)
    (hc : s.stack.contains ("contributor") = false) :
    endTagBody s ("page") d =
      (match s.model? with
       | some m =>
           if nonTextModels.contains m then EndResult.ok s []
           else endPageDispatch s
       | none => endPageDispatch s) := by
  unfold endTagBody
  rw [if_neg (by decide : ¬(ignore_tags.contains ("page")) = true)]
  rw [if_neg (show ¬((stack_ignore.any fun x => s.stack.contains x) = true) by
    simp [stack_ignore, contains_false_not_mem hc])]
  rw [if_neg (by decide), if_neg (by decide), if_neg (by decide),
    if_neg (by decide), if_neg (by decide), if_neg (by decide),
    if_neg (by decide), if_pos (by decide)]

lemma endTagBody_page_nonText (s : Target) (d m : String)
    (hc : s.stack.contains ("contributor") = false)
    (hm : s.model? = some m)
    (hnt : nonTextModels.contains m = true) :
    endTagBody s ("page") d = EndResult.ok s [] := by
  rw [endTagBody_page_start s d hc, hm]
  show (if nonTextModels.contains m = true then EndResult.ok s []
    else endPageDispatch s) = EndResult.ok s []
  rw [if_pos hnt]

lemma endPageDispatch_redirect_off (s : Target) (r : String)
    (hr : s.redirect? = some r) (hne : r ≠ "")
    (hcap : s.capture_redirects = false) :
    endPageDispatch s = EndResult.ok s [] := by
  unfold endPageDispatch
  rw [hr]
  show (if (r != "") = true then
      (if s.capture_redirects = true then
        EndResult.ok s [Effect.wordCb r s.title?]
      else EndResult.ok s [])
    else deliverPage s) = EndResult.ok s []
  rw [if_pos (bne_iff_ne.mpr hne), if_neg (by simp [hcap])]

lemma endTagBody_page_redirect_off (s : Target) (d r : String)
    (hc : s.stack.contains ("contributor") = false)
    (hr : s.redirect? = some r) (hne : r ≠ "")
    (hcap : s.capture_redirects = false) :
    endTagBody s ("page") d = EndResult.ok s [] := by
  rw [endTagBody_page_start s d hc]
  rcases hM : s.model? with _ | m
  · exact endPageDispatch_redirect_off s r hr hne hcap
  · show (if nonTextModels.contains m = true then EndResult.ok s []
      else endPageDispatch s) = EndResult.ok s []
    by_cases hN : nonTextModels.contains m = true
    · rw [if_pos hN]
    · rw [if_neg hN]
      exact endPageDispatch_redirect_off s r hr hne hcap

/-! ## Claims -/

/-- C1, counterexample: the spec's end-to-end scenario fails on the code.
A page titled `Glossary:happy` is rejected by the `"Thesaurus:"` title
filter of `parse_text`, so no entry at all is produced; and even under a
qualifying title the produced entry is not the claimed
`{ word := "happy", Synonyms := ["glad"], Antonyms := ["sad"] }`. -/
theorem C1_counterexample :
    parse_text ("Glossary:happy") bodyC1 = PTResult.skip ∧
      parse_text ("Thesaurus:happy") bodyC1 ≠ PTResult.output claimedC1 :=
  ⟨by decide, by decide⟩

/-- C1, amended: a page whose title contains `"Thesaurus:"` (here
`Thesaurus:happy`) with body lines `===Synonyms===`,
`\x7b\x7bl|en|glad\x7d\x7d`, `===Antonyms===`, `\x7b\x7bl|en|sad\x7d\x7d`
produces exactly one extracted entry whose word is the first body line
`===Synonyms===` (not the page title), whose Synonyms and Antonyms
buckets each hold `"en"` (the first template argument, the language
code), and whose other buckets are empty. -/
theorem C1_theorem :
    parse_text ("Thesaurus:happy") bodyC1 = PTResult.output entryC1 := by
  decide

/-- C2: on `EndTag("page")` for a finalized non-redirect page whose title
matches the `"Thesaurus:"` filter, the classifier runs and produces one
self-contained entry, but the entry is appended to `Output.txt`
(`Effect.fileEntry`) and the caller-supplied `word_cb` is never invoked
(no `Effect.wordCb` occurs) — contradicting the claim and the
`parse_wiktionary` docstring, which promise `word_cb(data)` for every
extracted word. -/
theorem C2_theorem :
    endTag stateC2 ("page") =
      EndResult.ok ⟨false, [], [], [], [], some bodyC1,
        some ("Thesaurus:happy"), some ("1"), none, some ("wikitext"),
        some ("text/x-wiki")⟩ [Effect.fileEntry entryC1] := by
  decide

/-- C3: the normalizer's literal-replacement rule (modelled from the spec
over the `clean_replace_map` table of the source):
`\x7b\x7bgiven name|Maria\x7d\x7d` becomes `Maria given name` (the `\1`
is substituted by the first positional argument) and
`\x7b\x7bsurname\x7d\x7d` becomes `surname`. -/
theorem C3_theorem :
    normalizeText ("\x7b\x7bgiven name|Maria\x7d\x7d") = "Maria given name" ∧
      normalizeText ("\x7b\x7bsurname\x7d\x7d") = "surname" :=
  ⟨by decide, by decide⟩

/-- C4, counterexample: a qualifying page with an empty body does not
classify successfully — `wordss` is empty and `data["word"] = wordss[0]`
raises an uncaught `IndexError` (modelled as `PTResult.err`), not an
entry with empty buckets. -/
theorem C4_counterexample :
    parse_text ("Thesaurus:x") "" = PTResult.err := by
  decide

/-- C4, amended: for every qualifying page whose body has at least one
non-empty line and no line matching one of the seven recognized relation
headers, classification succeeds and yields an entry whose seven
relation buckets are all empty. -/
theorem C4_theorem (title text : String)
    (h1 : pyContains title kThesaurus = true)
    (h2 : wordss text ≠ [])
    (h3 : ∀ l ∈ wordss text, relLabels.contains (normHeader l) = false) :
    ∃ w, parse_text title text =
      PTResult.output ⟨w, [], [], [], [], [], [], []⟩ := by
  obtain ⟨w0, ws, hw⟩ := List.exists_cons_of_ne_nil h2
  have h3' : ∀ l ∈ w0 :: ws, relLabels.contains (normHeader l) = false := by
    rw [hw] at h3
    exact h3
  obtain ⟨-, hb1, hb2, hb3, hb4, hb5, hb6, hb7⟩ :=
    fold_inert (w0 :: ws) initLoop (Or.inl rfl) h3'
  refine ⟨w0, ?_⟩
  unfold parse_text
  rw [if_neg (by simp [h1]), hw]
  show PTResult.output
      ⟨w0, (List.foldl step initLoop (w0 :: ws)).syno,
        (List.foldl step initLoop (w0 :: ws)).anto,
        (List.foldl step initLoop (w0 :: ws)).hypo,
        (List.foldl step initLoop (w0 :: ws)).hyper,
        (List.foldl step initLoop (w0 :: ws)).inst,
        (List.foldl step initLoop (w0 :: ws)).mero,
        (List.foldl step initLoop (w0 :: ws)).holy⟩ = _
  rw [hb1, hb2, hb3, hb4, hb5, hb6, hb7]
  rfl

/-- C4, witness: the amended theorem at the concrete qualifying page
`Thesaurus:x` with headerless body `hello world`. -/
theorem C4_witness :
    ∃ w, parse_text ("Thesaurus:x") ("hello world") =
      PTResult.output ⟨w, [], [], [], [], [], [], []⟩ :=
  C4_theorem ("Thesaurus:x") ("hello world") (by decide) (by decide)
    (by decide)

/-- C5: a sentinel section line (`=====Various=====`, `===See also===` or
`===Further reading===`) sets the current bucket to the distinguished
ignored state without itself contributing data, and as long as no
subsequent line matches one of the seven recognized relation headers, no
subsequent line is appended to any bucket. -/
theorem C5_theorem (st : LoopState) (sline : String)
    (hs : sline = kVarious ∨ sline = kSeeAlso ∨ sline = kFurther)
    (rest : List String)
    (hr : ∀ l ∈ rest, relLabels.contains (normHeader l) = false) :
    (step st sline).key = RelKey.dontcare ∧
      sameBuckets (step st sline) st ∧
      sameBuckets (List.foldl step (step st sline) rest) (step st sline) := by
  have h1 := step_sentinel st sline hs
  have h2 := fold_inert rest (step st sline) (Or.inr h1.1) hr
  exact ⟨h1.1, h1.2, h2.2⟩

/-- C5, witness: the theorem at a state that is collecting synonyms, the
sentinel `===See also===`, and two following non-header lines. -/
theorem C5_witness :
    (step stW kSeeAlso).key = RelKey.dontcare ∧
      sameBuckets (step stW kSeeAlso) stW ∧
      sameBuckets (List.foldl step (step stW kSeeAlso) restW)
        (step stW kSeeAlso) :=
  C5_theorem stW kSeeAlso (Or.inr (Or.inl rfl)) restW (by decide)

/-- C6, counterexample: an `EndTag("model")` whose accumulated text
`weird-model` is outside the recognized value set emits the diagnostic
and processing continues, but the `model` field of the page record is
not left unset — it is set to the unrecognized value. -/
theorem C6_counterexample :
    endTag stateC6 ("model") =
      EndResult.ok ⟨false, ["revision", "page"], [], [], [], none, none,
        none, none, some ("weird-model"), none⟩
        [Effect.diagModel ("weird-model")] ∧
      (some ("weird-model") : Option String) ≠ (none : Option String) :=
  ⟨by decide, by decide⟩

/-- C6, amended: when an end tag for `model` or `format` carries
accumulated text outside the recognized value set, the Assembler emits a
non-fatal diagnostic and processing continues, and the corresponding
page-record field is set to that unrecognized value (not left unset). -/
theorem C6_theorem :
    (∀ (s : Target) (rest : List String),
      s.stack = "model" :: rest →
      rest.contains ("contributor") = false →
      recognizedModels.contains (pyStrip (String.join s.dataBuf)) = false →
      endTag s ("model") =
        EndResult.ok
          { s with
            stack := rest
            dataBuf := []
            model? := some (pyStrip (String.join s.dataBuf)) }
          [Effect.diagModel (pyStrip (String.join s.dataBuf))]) ∧
    (∀ (s : Target) (rest : List String),
      s.stack = "format" :: rest →
      rest.contains ("contributor") = false →
      recognizedFormats.contains (pyStrip (String.join s.dataBuf)) = false →
      endTag s ("format") =
        EndResult.ok
          { s with
            stack := rest
            dataBuf := []
            format? := some (pyStrip (String.join s.dataBuf)) }
          [Effect.diagFormat (pyStrip (String.join s.dataBuf))]) := by
  constructor
  · intro s rest h hc hm
    rw [endTag_cons s ("model") rest h]
    exact endTagBody_model _ _ hc hm
  · intro s rest h hc hm
    rw [endTag_cons s ("format") rest h]
    exact endTagBody_format _ _ hc hm

/-- C6, witness: the amended theorem at concrete `model` and `format`
end-tag states carrying unrecognized values. -/
theorem C6_witness :
    endTag stateC6 ("model") =
      EndResult.ok ⟨false, ["revision", "page"], [], [], [], none, none,
        none, none, some ("weird-model"), none⟩
        [Effect.diagModel ("weird-model")] ∧
    endTag stateC6f ("format") =
      EndResult.ok ⟨false, ["revision", "page"], [], [], [], none, none,
        none, none, none, some ("weird-format")⟩
        [Effect.diagFormat ("weird-format")] :=
  ⟨C6_theorem.1 stateC6 ["revision", "page"] rfl (by decide) (by decide),
   C6_theorem.2 stateC6f ["revision", "page"] rfl (by decide) (by decide)⟩

/-- C7: on `EndTag("page")` with an accumulated content model in the
non-text set (`css`, `sanitized-css`, `javascript`, `Scribunto`), the
page produces no output whatsoever — the effect list is empty, so
neither an extracted entry nor a redirect record is emitted, regardless
of the other fields — and the handler returns normally with the `page`
frame popped, ready for the next page. -/
theorem C7_theorem (s : Target) (rest : List String) (m : String)
    (h : s.stack = "page" :: rest)
    (hc : rest.contains ("contributor") = false)
    (hm : s.model? = some m)
    (hnt : nonTextModels.contains m = true) :
    endTag s ("page") =
      EndResult.ok { s with stack := rest, dataBuf := [] } [] := by
  rw [endTag_cons s ("page") rest h]
  exact endTagBody_page_nonText _ _ m hc hm hnt

/-- C7, witness: the theorem at a concrete finished `Scribunto` page that
has both a title and a body. -/
theorem C7_witness :
    endTag stateC7 ("page") =
      EndResult.ok ⟨true, [], [], [], [], some ("code"), some ("Module:x"),
        none, none, some ("Scribunto"), none⟩ [] :=
  C7_theorem stateC7 [] ("Scribunto") rfl (by decide) rfl (by decide)

/-- C8: every call of the end-tag handler pops the top of the tag stack;
if the popped name differs from the lowercased, namespace-stripped
end-tag name the handler fails with the fatal stack-mismatch error, and
if they are equal it never fails with that error; every successful call
leaves the popped stack. -/
theorem C8_theorem (s : Target) (tag p : String) (rest : List String)
    (h : s.stack = p :: rest) :
    (normTag tag ≠ p →
      endTag s tag = EndResult.err (EndErr.stackMismatch p (normTag tag))) ∧
    (normTag tag = p →
      ∀ q r, endTag s tag ≠ EndResult.err (EndErr.stackMismatch q r)) ∧
    (∀ s2 effs, endTag s tag = EndResult.ok s2 effs → s2.stack = rest) := by
  have key : endTag s tag =
      (if normTag tag == p then
        endTagBody { s with stack := rest, dataBuf := [] } (normTag tag)
          (pyStrip (String.join s.dataBuf))
      else EndResult.err (EndErr.stackMismatch p (normTag tag))) := by
    unfold endTag
    rw [h]
  refine ⟨?_, ?_, ?_⟩
  · intro hne
    rw [key, if_neg (by simp [hne])]
  · intro heq q r hcontra
    rw [key, if_pos (by simp [heq])] at hcontra
    exact endTagBody_no_mismatch _ _ _ q r hcontra
  · intro s2 effs hok
    by_cases hcond : normTag tag = p
    · rw [key, if_pos (by simp [hcond])] at hok
      exact endTagBody_ok_stack _ _ _ _ _ hok
    · rw [key, if_neg (by simp [hcond])] at hok
      exact EndResult.noConfusion hok

/-- C8, witness: an end tag `foo` against a stack whose top is `page`
aborts with the stack-mismatch error. -/
theorem C8_witness :
    endTag stateC8 ("foo") =
      EndResult.err (EndErr.stackMismatch ("page") ("foo")) :=
  (C8_theorem stateC8 ("foo") ("page") [] rfl).1 (by decide)

/-- C9: finalizing a page whose record has a (truthy) redirect target
while redirect capture is disabled invokes no callback at all — the
effect list is empty, so `word_cb` is never called and the body is never
handed to the classifier. -/
theorem C9_theorem (s : Target) (rest : List String) (r : String)
    (h : s.stack = "page" :: rest)
    (hc : rest.contains ("contributor") = false)
    (hr : s.redirect? = some r) (hne : r ≠ "")
    (hcap : s.capture_redirects = false) :
    endTag s ("page") =
      EndResult.ok { s with stack := rest, dataBuf := [] } [] := by
  rw [endTag_cons s ("page") rest h]
  exact endTagBody_page_redirect_off _ _ r hc hr hne hcap

/-- C9, witness: the theorem at a concrete redirect page `Cat -> Dog`
with redirect capture off: no effect is produced. -/
theorem C9_witness :
    endTag stateC9 ("page") =
      EndResult.ok ⟨false, [], [], [], [], some ("body"), some ("Cat"),
        none, some ("Dog"), some ("wikitext"), none⟩ [] :=
  C9_theorem stateC9 [] ("Dog") rfl (by decide) rfl (by decide) rfl

/-- C10: `parse_text` returns immediately with no extracted entry exactly
when the page title does not contain the substring `"Thesaurus:"`;
containment anywhere in the title suffices for the page to get past the
filter. -/
theorem C10_theorem (word text : String) :
    parse_text word text = PTResult.skip ↔
      pyContains word kThesaurus = false := by
  unfold parse_text
  by_cases h : pyContains word kThesaurus = false
  · rw [if_pos h]
    simp [h]
  · rw [if_neg h]
    constructor
    · intro hcontra
      rcases hw : wordss text with _ | ⟨w0, ws⟩
      · rw [hw] at hcontra
        exact PTResult.noConfusion hcontra
      · rw [hw] at hcontra
        exact PTResult.noConfusion hcontra
    · intro hfalse
      exact absurd hfalse h
